import Mathlib

/-!
Shallow embedding of the BTC-staking script-template core
(`src/utils/formatMs.ts` and `src/utils/stakingScriptMini.ts`).

Modelling conventions:
* A JS `Buffer` is a `List Nat` of byte values (every byte a `Buffer`
  produces lies in `0..255`; hex rendering takes `% 256` to stay total).
* The dynamic argument universe of the template renderer is the closed
  inductive `Arg`: `buf` (Buffer), `ms` (a `Miniscript` handle, carried as
  its canonical string), `str`, `num`, `list`, `undef` (JS `undefined`),
  and `other` for every unsupported runtime value (objects, `null`, …).
* Fallible JS code (a `throw`) becomes `Except String`, carrying the
  thrown message.
* The external policy compiler (`Miniscript.fromString`) and the opcode
  assembler (`script.compile`) are out of scope per the design document;
  the builders here produce the rendered policy text / the serialized
  payload handed to those collaborators.
-/

namespace BtcStaking

/-- JS whitespace characters stripped by `/\s+/g` (ASCII class; the
Unicode space separators also matched by `\s` never occur in the
templates of this repository). -/
def isWsChar (c : Char) : Bool :=
  c = ' ' || c = '\t' || c = '\n' || c = '\r' || c = '\x0b' || c = '\x0c'

/-- `str.replace(/\s+/g, "")` on a fragment: remove every whitespace char. -/
def stripWs (s : String) : String :=
  ⟨s.data.filter (fun c => !isWsChar c)⟩

/-- Lowercase hex digit for a value `0..15`. -/
def hexDigit (n : Nat) : Char :=
  if n < 10 then Char.ofNat (48 + n) else Char.ofNat (87 + n)

/-- One byte as two lowercase hex characters (`Buffer.toString("hex")`
per byte; bytes are always `< 256`, the `% 256` keeps the model total). -/
def hexByte (b : Nat) : String :=
  ⟨[hexDigit (b % 256 / 16), hexDigit (b % 16)]⟩

/-- `buf.toString("hex")`: lowercase hex, no prefix. -/
def hexString (bs : List Nat) : String :=
  String.join (bs.map hexByte)

/-- The runtime kinds a renderer argument can have (`unknown` in the
source, discriminated by `Buffer.isBuffer`, `instanceof Miniscript`,
`typeof`, `Array.isArray`). -/
inductive Arg where
  | buf (b : List Nat)
  | ms (s : String)
  | str (s : String)
  | num (n : Nat)
  | list (l : List Arg)
  | undef
  | other

/-- `formatArg` (src/utils/formatMs.ts:3-19): Buffer → lowercase hex,
Miniscript → its string, string/number → `toString()`, anything else
throws `Unsupported type: …`. -/
def formatArg : Arg → Except String String
  | .buf b => .ok (hexString b)
  | .ms s => .ok s
  | .str s => .ok s
  | .num n => .ok (Nat.repr n)
  | _ => .error "Unsupported type"

/-- The `arr.every(...)` guard of `flatArray`: the element is a Buffer, a
Miniscript, a string or a number. -/
def isSupportedElem : Arg → Bool
  | .buf _ => true
  | .ms _ => true
  | .str _ => true
  | .num _ => true
  | _ => false

/-- `flatArray` (src/utils/formatMs.ts:21-27): if every element is of a
supported kind, format each and join with `","`; otherwise throw. -/
def flatArray (arr : List Arg) : Except String String :=
  if arr.all isSupportedElem then
    (arr.mapM formatArg).map (String.intercalate ",")
  else
    .error "Unsupported type"

/-- `formatMs` (src/utils/formatMs.ts:29-41): strip whitespace from the
literal fragment; `undefined` appends nothing; an array is flattened by
`flatArray` and (via the source's self-call, which re-strips the already
stripped fragment and formats the resulting string verbatim) appended;
any other argument is appended via `formatArg`. -/
def formatMs (str : String) (arg : Arg) : Except String String :=
  let str := stripWs str
  match arg with
  | .undef => .ok str
  | .list l => (flatArray l).map (fun s => str ++ s)
  | a => (formatArg a).map (fun s => str ++ s)

/-- The reduction inside `formatMsVararg` (src/utils/formatMs.ts:43-52):
fold `formatMs` over the literal fragments, pairing fragment `i` with
argument `i` (`undefined` once the arguments run out); the first thrown
error aborts the whole render. -/
def msString : List String → List Arg → Except String String
  | [], _ => .ok ""
  | s :: ss, [] => do
      let h ← formatMs s .undef
      let t ← msString ss []
      pure (h ++ t)
  | s :: ss, a :: as => do
      let h ← formatMs s a
      let t ← msString ss as
      pure (h ++ t)

/-- `PK_LENGTH` (src/utils/stakingScriptMini.ts:8). -/
def PK_LENGTH : Nat := 32

/-- The private fields of `StakingScriptDataMini`
(src/utils/stakingScriptMini.ts:16-23). -/
structure StakingScriptDataMini where
  stakerKey : List Nat
  finalityProviderKeys : List (List Nat)
  covenantKeys : List (List Nat)
  covenantThreshold : Nat
  stakingTimeLock : Nat
  unbondingTimeLock : Nat
  magicBytes : List Nat
deriving DecidableEq, Repr

namespace StakingScriptDataMini

/-- `validate` (src/utils/stakingScriptMini.ts:80-104): staker key length,
every finality-provider and covenant key length, and the 16-bit upper
bound on the staking timelock. -/
def validate (d : StakingScriptDataMini) : Bool :=
  if d.stakerKey.length != PK_LENGTH then
    false
  else if d.finalityProviderKeys.any
      (fun finalityProviderKey => finalityProviderKey.length != PK_LENGTH) then
    false
  else if d.covenantKeys.any (fun covenantKey => covenantKey.length != PK_LENGTH) then
    false
  else if d.stakingTimeLock > 65535 then
    false
  else
    true

/-- The constructor (src/utils/stakingScriptMini.ts:25-75).  The JS
truthiness guard `!x` rejects the three numeric fields when they are `0`
(a Buffer or an array is an object and is truthy even when empty; `null`
and `undefined` inputs are outside this typed model).  Then `validate`
runs and a `false` result throws the single generic message. -/
def construct (stakerKey : List Nat) (finalityProviderKeys : List (List Nat))
    (covenantKeys : List (List Nat)) (covenantThreshold : Nat)
    (stakingTimelock : Nat) (unbondingTimelock : Nat) (magicBytes : List Nat) :
    Except String StakingScriptDataMini :=
  if covenantThreshold = 0 || stakingTimelock = 0 || unbondingTimelock = 0 then
    .error "Missing required input values"
  else
    let d : StakingScriptDataMini :=
      { stakerKey, finalityProviderKeys, covenantKeys, covenantThreshold,
        stakingTimeLock := stakingTimelock, unbondingTimeLock := unbondingTimelock,
        magicBytes }
    if !d.validate then
      .error "Invalid script data provided"
    else
      .ok d

/-- `buildTimelockScript` (src/utils/stakingScriptMini.ts:115-120), up to
the external compiler: the rendered policy text of
`` miniscript`and_v(v:pk(${stakerKey}),older(${timelock}))` ``. -/
def buildTimelockScript (d : StakingScriptDataMini) (timelock : Nat) :
    Except String String :=
  msString ["and_v(v:pk(", "),older(", "))"]
    [.buf d.stakerKey, .num timelock]

/-- `buildStakingTimelockScript` (src/utils/stakingScriptMini.ts:127-129). -/
def buildStakingTimelockScript (d : StakingScriptDataMini) : Except String String :=
  d.buildTimelockScript d.stakingTimeLock

/-- `buildUnbondingTimelockScript` (src/utils/stakingScriptMini.ts:135-137). -/
def buildUnbondingTimelockScript (d : StakingScriptDataMini) : Except String String :=
  d.buildTimelockScript d.unbondingTimeLock

/-- `buildUnbondingScript` (src/utils/stakingScriptMini.ts:142-152): the
literal fragments keep the source's interior whitespace, which the
renderer strips. -/
def buildUnbondingScript (d : StakingScriptDataMini) : Except String String :=
  msString
    ["and_v(\n        v:pk(",
     "),\n        multi_a(\n          ",
     ",\n          ",
     "\n          )\n        )"]
    [.buf d.stakerKey, .num d.covenantThreshold,
     .list (d.covenantKeys.map Arg.buf)]

/-- `buildSlashingScript` (src/utils/stakingScriptMini.ts:160-169): the
finality-provider slot is `fpKeys.map(pk => ` ``v:pk(${pk.toString("hex")})`` `)`,
a list of JS strings. -/
def buildSlashingScript (d : StakingScriptDataMini) : Except String String :=
  msString
    ["\n    and_v(\n      and_v(\n        v:pk(",
     "),\n        ",
     "\n      ),\n      multi_a(",
     ",",
     ")\n    )"]
    [.buf d.stakerKey,
     .list (d.finalityProviderKeys.map
       (fun pk => Arg.str ("v:pk(" ++ hexString pk ++ ")"))),
     .num d.covenantThreshold,
     .list (d.covenantKeys.map Arg.buf)]

/-- `buildDataEmbedScript` (src/utils/stakingScriptMini.ts:178-194), up to
the external opcode assembler: the serialized payload
`magicBytes || version 0x00 || stakerKey || finalityProviderKeys[0] ||
stakingTimeLock (uint16 BE)`.  `writeUInt16BE` throws a `RangeError` when
the timelock exceeds `65535`; `Buffer.concat` throws a `TypeError` when
`finalityProviderKeys[0]` is `undefined` (empty list). -/
def buildDataEmbedScript (d : StakingScriptDataMini) : Except String (List Nat) :=
  if d.stakingTimeLock > 65535 then
    .error "RangeError: value out of range"
  else
    match d.finalityProviderKeys with
    | [] => .error "TypeError: list argument must be an Array of Buffers"
    | fp0 :: _ =>
      .ok (d.magicBytes ++ [0] ++ d.stakerKey ++ fp0
            ++ [d.stakingTimeLock / 256, d.stakingTimeLock % 256])

end StakingScriptDataMini

/-- `StakingScripts` (the bundle of the five builds); the four policy
scripts are carried as their rendered policy text and the data-embed
script as its serialized payload, the external compiler/assembler being
out of scope. -/
structure StakingScripts where
  timelockScript : String
  unbondingScript : String
  slashingScript : String
  unbondingTimelockScript : String
  dataEmbedScript : List Nat
deriving DecidableEq, Repr

namespace StakingScriptDataMini

/-- `buildScripts` (src/utils/stakingScriptMini.ts:200-208): build the
five scripts in the order of the object literal; the first failure aborts
the whole call. -/
def buildScripts (d : StakingScriptDataMini) : Except String StakingScripts := do
  let timelockScript ← d.buildStakingTimelockScript
  let unbondingScript ← d.buildUnbondingScript
  let slashingScript ← d.buildSlashingScript
  let unbondingTimelockScript ← d.buildUnbondingTimelockScript
  let dataEmbedScript ← d.buildDataEmbedScript
  pure { timelockScript, unbondingScript, slashingScript,
         unbondingTimelockScript, dataEmbedScript }

end StakingScriptDataMini

/-- The five §3 invariants of the design document, stated from the spec's
words (for the refinement comparison of claim C1 against `construct`). -/
def specInvariants (stakerKey : List Nat) (finalityProviderKeys : List (List Nat))
    (covenantKeys : List (List Nat)) (covenantThreshold : Nat)
    (stakingTimelock : Nat) (magicBytes : List Nat) : Prop :=
  stakerKey.length = 32 ∧
  (∀ k ∈ finalityProviderKeys, k.length = 32) ∧
  (∀ k ∈ covenantKeys, k.length = 32) ∧
  (1 ≤ stakingTimelock ∧ stakingTimelock ≤ 65535) ∧
  (1 ≤ covenantThreshold ∧ covenantThreshold ≤ covenantKeys.length) ∧
  magicBytes ≠ []

instance (sk : List Nat) (fp cov : List (List Nat)) (thr st : Nat) (mb : List Nat) :
    Decidable (specInvariants sk fp cov thr st mb) := by
  unfold specInvariants
  infer_instance

/-! ## Supporting lemmas -/

lemma foldl_append_init (l : List String) : ∀ (x : String),
    List.foldl (fun r s => r ++ s) x l = x ++ List.foldl (fun r s => r ++ s) "" l := by
  induction l with
  | nil => intro x; simp [List.foldl, String.append_empty]
  | cons a as ih =>
      intro x
      simp only [List.foldl]
      rw [ih (x ++ a), ih ("" ++ a)]
      simp [String.append_assoc, String.empty_append]

lemma intercalate_go_spec (s : String) :
    ∀ (l : List String) (acc : String),
      String.intercalate.go acc s l = acc ++ String.join (l.map (fun x => s ++ x)) := by
  intro l
  induction l with
  | nil => intro acc; simp [String.intercalate.go, String.join, String.append_empty]
  | cons a as ih =>
      intro acc
      simp only [String.intercalate.go, ih, List.map_cons, String.join, List.foldl]
      rw [foldl_append_init _ ("" ++ (s ++ a))]
      simp [String.append_assoc, String.empty_append]

lemma stripWs_stripWs (s : String) : stripWs (stripWs s) = stripWs s := by
  simp [stripWs, List.filter_filter]

lemma formatMs_stripWs (s : String) (a : Arg) : formatMs (stripWs s) a = formatMs s a := by
  simp only [formatMs, stripWs_stripWs]

lemma mapM_loop_buf (bs : List (List Nat)) : ∀ acc : List String,
    List.mapM.loop formatArg (bs.map Arg.buf) acc = .ok (acc.reverse ++ bs.map hexString) := by
  induction bs with
  | nil => intro acc; simp [List.mapM.loop, pure, Except.pure]
  | cons b bs ih =>
      intro acc
      simp [List.mapM.loop, formatArg, bind, Except.bind, ih, List.reverse_cons,
        List.append_assoc]

lemma mapM_loop_str {α : Type} (f : α → String) (l : List α) : ∀ acc : List String,
    List.mapM.loop formatArg (l.map (fun x => Arg.str (f x))) acc
      = .ok (acc.reverse ++ l.map f) := by
  induction l with
  | nil => intro acc; simp [List.mapM.loop, pure, Except.pure]
  | cons b bs ih =>
      intro acc
      simp [List.mapM.loop, formatArg, bind, Except.bind, ih, List.reverse_cons,
        List.append_assoc]

lemma formatArg_of_supported (a : Arg) (h : isSupportedElem a = true) :
    ∃ s, formatArg a = .ok s := by
  cases a <;> simp_all [isSupportedElem, formatArg]

lemma mapM_loop_supported (l : List Arg) (h : ∀ x ∈ l, isSupportedElem x = true) :
    ∃ ss, List.Forall₂ (fun a s => formatArg a = .ok s) l ss ∧
      ∀ acc : List String, List.mapM.loop formatArg l acc = .ok (acc.reverse ++ ss) := by
  induction l with
  | nil => exact ⟨[], .nil, fun acc => by simp [List.mapM.loop, pure, Except.pure]⟩
  | cons a as ih =>
      obtain ⟨s, hs⟩ := formatArg_of_supported a (h a (List.mem_cons_self a as))
      obtain ⟨ss, hss, hloop⟩ := ih (fun x hx => h x (List.mem_cons_of_mem a hx))
      refine ⟨s :: ss, .cons hs hss, fun acc => ?_⟩
      simp [List.mapM.loop, hs, bind, Except.bind, hloop, List.reverse_cons,
        List.append_assoc]

lemma flatArray_map_buf (bs : List (List Nat)) :
    flatArray (bs.map Arg.buf) = .ok (String.intercalate "," (bs.map hexString)) := by
  unfold flatArray
  rw [if_pos (by simp [List.all_eq_true, isSupportedElem])]
  show ((List.mapM.loop formatArg (bs.map Arg.buf) []).map (String.intercalate ",")) = _
  rw [mapM_loop_buf]
  rfl

lemma flatArray_map_str {α : Type} (l : List α) (f : α → String) :
    flatArray (l.map (fun x => Arg.str (f x))) = .ok (String.intercalate "," (l.map f)) := by
  unfold flatArray
  rw [if_pos (by simp [List.all_eq_true, isSupportedElem])]
  show ((List.mapM.loop formatArg (l.map (fun x => Arg.str (f x))) []).map
    (String.intercalate ",")) = _
  rw [mapM_loop_str]
  rfl

namespace StakingScriptDataMini

lemma validate_iff (d : StakingScriptDataMini) :
    d.validate = true ↔
      (d.stakerKey.length = 32 ∧ (∀ k ∈ d.finalityProviderKeys, k.length = 32) ∧
       (∀ k ∈ d.covenantKeys, k.length = 32) ∧ d.stakingTimeLock ≤ 65535) := by
  unfold validate PK_LENGTH
  split_ifs with h1 h2 h3 h4
  · simp only [bne_iff_ne, ne_eq] at h1
    simp [h1]
  · simp only [List.any_eq_true, bne_iff_ne, ne_eq] at h2
    obtain ⟨k, hk, hne⟩ := h2
    simp only [false_iff]
    rintro ⟨-, hfp, -, -⟩
    exact hne (hfp k hk)
  · simp only [List.any_eq_true, bne_iff_ne, ne_eq] at h3
    obtain ⟨k, hk, hne⟩ := h3
    simp only [false_iff]
    rintro ⟨-, -, hcov, -⟩
    exact hne (hcov k hk)
  · simp only [false_iff]
    rintro ⟨-, -, -, hle⟩
    omega
  · simp only [bne_iff_ne, ne_eq, not_not] at h1
    simp only [List.any_eq_true, bne_iff_ne, ne_eq, not_exists, not_and, not_not] at h2 h3
    simp only [not_lt] at h4
    simp only [true_iff]
    exact ⟨h1, h2, h3, h4⟩

lemma construct_isOk_iff (sk : List Nat) (fp cov : List (List Nat)) (thr st ut : Nat)
    (mb : List Nat) :
    (construct sk fp cov thr st ut mb).isOk = true ↔
      (sk.length = 32 ∧ (∀ k ∈ fp, k.length = 32) ∧ (∀ k ∈ cov, k.length = 32) ∧
       1 ≤ st ∧ st ≤ 65535 ∧ 1 ≤ thr ∧ 1 ≤ ut) := by
  simp only [construct]
  split_ifs with h1 h2
  · simp only [decide_eq_true_eq, Bool.or_eq_true] at h1
    refine iff_of_false (by simp [Except.isOk, Except.toBool]) ?_
    rintro ⟨-, -, -, hd, -, hf, hg⟩
    omega
  · rw [Bool.not_eq_true', Bool.eq_false_iff] at h2
    refine iff_of_false (by simp [Except.isOk, Except.toBool]) ?_
    rintro ⟨ha, hb, hc, hd, he, hf, hg⟩
    exact h2 ((validate_iff _).mpr ⟨ha, hb, hc, he⟩)
  · rw [Bool.not_eq_true', Bool.eq_false_iff, not_not] at h2
    have hv := (validate_iff _).mp h2
    simp only [decide_eq_true_eq, Bool.or_eq_true, not_or] at h1
    exact iff_of_true rfl
      ⟨hv.1, hv.2.1, hv.2.2.1, by omega, hv.2.2.2, by omega, by omega⟩

lemma buildTimelockScript_eq (d : StakingScriptDataMini) (t : Nat) :
    d.buildTimelockScript t =
      .ok ("and_v(v:pk(" ++ hexString d.stakerKey ++ "),older(" ++ Nat.repr t ++ "))") := by
  simp only [buildTimelockScript, msString, formatMs, formatArg, flatArray, bind, pure,
    Except.bind, Except.pure, Except.map]
  congr 1
  apply String.ext
  simp [String.data_append, stripWs, List.filter, isWsChar]

lemma buildUnbondingScript_eq (d : StakingScriptDataMini) :
    d.buildUnbondingScript =
      .ok ("and_v(v:pk(" ++ hexString d.stakerKey ++ "),multi_a(" ++
        Nat.repr d.covenantThreshold ++ "," ++
        String.intercalate "," (d.covenantKeys.map hexString) ++ "))") := by
  simp only [buildUnbondingScript, msString, formatMs, formatArg, flatArray_map_buf,
    bind, pure, Except.bind, Except.pure, Except.map]
  congr 1
  apply String.ext
  simp [String.data_append, stripWs, List.filter, isWsChar, String.append_assoc]

lemma buildSlashingScript_eq (d : StakingScriptDataMini) :
    d.buildSlashingScript =
      .ok ("and_v(and_v(v:pk(" ++ hexString d.stakerKey ++ ")," ++
        String.intercalate ","
          (d.finalityProviderKeys.map (fun pk => "v:pk(" ++ hexString pk ++ ")")) ++
        "),multi_a(" ++ Nat.repr d.covenantThreshold ++ "," ++
        String.intercalate "," (d.covenantKeys.map hexString) ++ "))") := by
  simp only [buildSlashingScript, msString, formatMs, formatArg, flatArray_map_buf,
    flatArray_map_str, bind, pure, Except.bind, Except.pure, Except.map]
  congr 1
  apply String.ext
  simp [String.data_append, stripWs, List.filter, isWsChar, String.append_assoc]

end StakingScriptDataMini

/-! ## Claim theorems -/

/-- C1 (counterexample): validation does not decide exactly the five §3
invariants — a covenant threshold of `5` over three covenant keys together
with empty magic bytes is accepted by `construct`, although the §3
invariants reject both. -/
theorem c1_counterexample :
    (StakingScriptDataMini.construct (List.replicate 32 1) [List.replicate 32 2]
      [List.replicate 32 3] 5 100 100 []).isOk = true ∧
    ¬ specInvariants (List.replicate 32 1) [List.replicate 32 2]
      [List.replicate 32 3] 5 100 [] :=
  ⟨rfl, by decide⟩

/-- C1 (amended): validation — the `validate` method together with
construction of `StakingScriptDataMini` — succeeds if and only if the
staker key is 32 bytes, every finality-provider and covenant key is
32 bytes, `1 ≤ stakingTimelock ≤ 65535`, `covenantThreshold ≥ 1` and
`unbondingTimelock ≥ 1`; the upper bound of the covenant threshold by the
covenant-key count and the non-emptiness of the magic bytes are not
checked. -/
theorem c1_validation_iff (sk : List Nat) (fp cov : List (List Nat)) (thr st ut : Nat)
    (mb : List Nat) :
    (StakingScriptDataMini.construct sk fp cov thr st ut mb).isOk = true ↔
      (sk.length = 32 ∧ (∀ k ∈ fp, k.length = 32) ∧ (∀ k ∈ cov, k.length = 32) ∧
       1 ≤ st ∧ st ≤ 65535 ∧ 1 ≤ thr ∧ 1 ≤ ut) :=
  StakingScriptDataMini.construct_isOk_iff sk fp cov thr st ut mb

/-- C1 (witness): the amended equivalence evaluated at a fully valid
parameter set. -/
theorem c1_witness :
    (StakingScriptDataMini.construct (List.replicate 32 1) [List.replicate 32 2]
      [List.replicate 32 3] 1 100 100 [1]).isOk = true :=
  (c1_validation_iff (List.replicate 32 1) [List.replicate 32 2]
    [List.replicate 32 3] 1 100 100 [1]).mpr (by decide)

/-- C2 (counterexample): a non-homogeneous list mixing a byte sequence and
a number does not fail — it renders as the comma-joined formatting of its
elements. -/
theorem c2_counterexample :
    formatMs "" (Arg.list [Arg.buf [170], Arg.num 5]) = .ok "aa,5" := rfl

/-- C2 (amended): a list argument fails with the `UnsupportedArgumentType`
error exactly when it contains an element of an unsupported kind; any list
whose elements are each of a supported kind — homogeneous or not — renders
as the comma-joined formatting of its elements in original order (the
pointwise `formatArg` results, `List.Forall₂` fixing order and length),
and in particular a homogeneous list of byte sequences renders as the
lowercase hex strings joined by commas with no trailing separator. -/
theorem c2_list_rendering (l : List Arg) (bs : List (List Nat)) :
    (flatArray l = .error "Unsupported type" ↔ ∃ x ∈ l, isSupportedElem x = false) ∧
    ((∀ x ∈ l, isSupportedElem x = true) →
      ∃ ss, List.Forall₂ (fun a s => formatArg a = .ok s) l ss ∧
        flatArray l = .ok (String.intercalate "," ss)) ∧
    flatArray (bs.map Arg.buf) = .ok (String.intercalate "," (bs.map hexString)) := by
  have hrender : (∀ x ∈ l, isSupportedElem x = true) →
      ∃ ss, List.Forall₂ (fun a s => formatArg a = .ok s) l ss ∧
        flatArray l = .ok (String.intercalate "," ss) := by
    intro hall
    obtain ⟨ss, hss, hloop⟩ := mapM_loop_supported l hall
    refine ⟨ss, hss, ?_⟩
    unfold flatArray
    rw [if_pos (List.all_eq_true.mpr hall)]
    have hm : l.mapM formatArg = .ok ss := by
      show List.mapM.loop formatArg l [] = _
      simpa using hloop []
    rw [hm]
    rfl
  refine ⟨?_, hrender, flatArray_map_buf bs⟩
  constructor
  · intro herr
    by_contra hno
    push_neg at hno
    obtain ⟨ss, hss, hok⟩ := hrender (fun x hx => by
      have := hno x hx
      simpa using this)
    rw [hok] at herr
    simp at herr
  · rintro ⟨x, hx, hxf⟩
    unfold flatArray
    rw [if_neg]
    simp only [List.all_eq_true, not_forall]
    exact ⟨x, hx, by simp [hxf]⟩

/-- C2 (witness): the amended statement evaluated on the mixed
byte-sequence/number list (which renders, comma-joined) and on the
singleton list holding `undefined` (which fails). -/
theorem c2_witness :
    (∃ ss, List.Forall₂ (fun a s => formatArg a = .ok s) [Arg.buf [170], Arg.num 5] ss ∧
      flatArray [Arg.buf [170], Arg.num 5] = .ok (String.intercalate "," ss)) ∧
    flatArray [Arg.undef] = .error "Unsupported type" :=
  ⟨(c2_list_rendering [Arg.buf [170], Arg.num 5] []).2.1 (by decide),
   (c2_list_rendering [Arg.undef] []).1.mpr ⟨Arg.undef, List.mem_singleton.mpr rfl, rfl⟩⟩

/-- C3 (counterexample): two violations of distinct §3 invariants — a
31-byte staker key, and a staking timelock of 70000 — both raise the same
generic message `Invalid script data provided`; the error does not
identify the failing field. -/
theorem c3_counterexample :
    StakingScriptDataMini.construct (List.replicate 31 1) [] [] 1 100 100 [1]
      = .error "Invalid script data provided" ∧
    StakingScriptDataMini.construct (List.replicate 32 1) [] [] 1 70000 100 [1]
      = .error "Invalid script data provided" :=
  ⟨rfl, rfl⟩

/-- C3 (amended): whenever validation of candidate parameters fails, the
raised error is one of the two generic messages — `Missing required input
values` for a zero numeric field, `Invalid script data provided` for any
`validate` failure — never a field-specific one. -/
theorem c3_generic_error (sk : List Nat) (fp cov : List (List Nat)) (thr st ut : Nat)
    (mb : List Nat) (e : String)
    (h : StakingScriptDataMini.construct sk fp cov thr st ut mb = .error e) :
    e = "Missing required input values" ∨ e = "Invalid script data provided" := by
  simp only [StakingScriptDataMini.construct] at h
  split_ifs at h <;> simp_all

/-- C3 (witness): the amended statement evaluated at a 31-byte staker
key. -/
theorem c3_witness :
    ("Invalid script data provided" : String) = "Missing required input values" ∨
    ("Invalid script data provided" : String) = "Invalid script data provided" :=
  c3_generic_error (List.replicate 31 1) [] [] 1 100 100 [1] _ rfl

/-- C4: whenever `buildDataEmbedScript` produces the payload (the first
finality-provider key exists and the staking timelock fits 16 bits), the
payload is exactly `magicBytes || 0x00 || stakerKey || first provider key
|| big-endian uint16 timelock`; at the reference input — magic
`0xAABBCCDD`, 32 zero bytes staker key, 32 `0xFF` bytes provider key,
timelock 100 — it is the 71-byte `AABBCCDD 00 <32×00> <32×FF> 0064`. -/
theorem c4_data_embed_payload (d : StakingScriptDataMini) (fp0 : List Nat)
    (rest : List (List Nat)) (hfp : d.finalityProviderKeys = fp0 :: rest)
    (hst : d.stakingTimeLock ≤ 65535) :
    d.buildDataEmbedScript = .ok (d.magicBytes ++ [0] ++ d.stakerKey ++ fp0 ++
      [d.stakingTimeLock / 256, d.stakingTimeLock % 256]) ∧
    StakingScriptDataMini.buildDataEmbedScript
      ⟨List.replicate 32 0, [List.replicate 32 255], [List.replicate 32 3], 2, 100, 100,
        [170, 187, 204, 221]⟩
      = .ok ([170, 187, 204, 221] ++ [0] ++ List.replicate 32 0 ++ List.replicate 32 255
          ++ [0, 100]) ∧
    ([170, 187, 204, 221] ++ [0] ++ List.replicate 32 0 ++ List.replicate 32 255
        ++ ([0, 100] : List Nat)).length = 71 := by
  refine ⟨?_, rfl, rfl⟩
  unfold StakingScriptDataMini.buildDataEmbedScript
  rw [if_neg (by omega), hfp]

/-- C4 (witness): the payload equation applied at the reference input. -/
theorem c4_witness :
    StakingScriptDataMini.buildDataEmbedScript
      ⟨List.replicate 32 0, [List.replicate 32 255], [List.replicate 32 3], 2, 100, 100,
        [170, 187, 204, 221]⟩
      = .ok ([170, 187, 204, 221] ++ [0] ++ List.replicate 32 0 ++ List.replicate 32 255
          ++ [100 / 256, 100 % 256]) :=
  (c4_data_embed_payload
    ⟨List.replicate 32 0, [List.replicate 32 255], [List.replicate 32 3], 2, 100, 100,
      [170, 187, 204, 221]⟩
    (List.replicate 32 255) [] rfl (by decide)).1

/-- C5: for a staker key of 32 `0x01` bytes and `lockBlocks = 144`,
`buildTimelockScript` renders exactly
`and_v(v:pk(01…01),older(144))` (64 lowercase hex characters for the
key), and `buildStakingTimelockScript` / `buildUnbondingTimelockScript`
are this same template specialized with the staking and the unbonding
timelock. -/
theorem c5_timelock_template (fp cov : List (List Nat)) (thr st ut : Nat)
    (mb : List Nat) :
    StakingScriptDataMini.buildTimelockScript
        ⟨List.replicate 32 1, fp, cov, thr, st, ut, mb⟩ 144 =
      .ok "and_v(v:pk(0101010101010101010101010101010101010101010101010101010101010101),older(144))" ∧
    (∀ d : StakingScriptDataMini,
      d.buildStakingTimelockScript = d.buildTimelockScript d.stakingTimeLock) ∧
    (∀ d : StakingScriptDataMini,
      d.buildUnbondingTimelockScript = d.buildTimelockScript d.unbondingTimeLock) :=
  ⟨rfl, fun _ => rfl, fun _ => rfl⟩

/-- C6: with exactly one finality-provider key and covenant threshold 2
over three covenant keys, `buildSlashingScript` renders the policy text
`and_v(and_v(v:pk(staker),v:pk(fp)),multi_a(2,c1,c2,c3))` with all keys in
the order supplied, before compilation. -/
theorem c6_slashing_script (sk f c1 c2 c3 : List Nat) (st ut : Nat) (mb : List Nat) :
    StakingScriptDataMini.buildSlashingScript ⟨sk, [f], [c1, c2, c3], 2, st, ut, mb⟩ =
      .ok ("and_v(and_v(v:pk(" ++ hexString sk ++ "),v:pk(" ++ hexString f ++
        ")),multi_a(2," ++ hexString c1 ++ "," ++ hexString c2 ++ "," ++
        hexString c3 ++ "))") := by
  simp only [StakingScriptDataMini.buildSlashingScript, msString, formatMs, formatArg,
    flatArray, bind, pure, Except.bind, Except.pure, Except.map, List.map,
    List.mapM_cons, List.mapM_nil, List.all_cons, List.all_nil, isSupportedElem,
    Bool.and_true, Bool.true_and, if_true, String.intercalate, intercalate_go_spec,
    String.join, List.foldl, List.map_cons, List.map_nil]
  congr 1
  apply String.ext
  have h2 : (Nat.repr 2).data = ['2'] := by decide
  simp [String.data_append, stripWs, List.filter, isWsChar, foldl_append_init,
    String.append_assoc, String.empty_append, String.append_empty, h2]

/-- C7: `buildScripts` is atomic — when it returns a bundle, every field
is the successful result of the corresponding sub-build, and when any
sub-build fails, it returns no bundle and surfaces that single failure
unchanged. -/
theorem c7_atomic_bundle (d : StakingScriptDataMini) :
    (∀ b, d.buildScripts = .ok b →
      d.buildStakingTimelockScript = .ok b.timelockScript ∧
      d.buildUnbondingScript = .ok b.unbondingScript ∧
      d.buildSlashingScript = .ok b.slashingScript ∧
      d.buildUnbondingTimelockScript = .ok b.unbondingTimelockScript ∧
      d.buildDataEmbedScript = .ok b.dataEmbedScript) ∧
    (∀ e, d.buildScripts = .error e →
      d.buildStakingTimelockScript = .error e ∨
      d.buildUnbondingScript = .error e ∨
      d.buildSlashingScript = .error e ∨
      d.buildUnbondingTimelockScript = .error e ∨
      d.buildDataEmbedScript = .error e) := by
  unfold StakingScriptDataMini.buildScripts
  cases h1 : d.buildStakingTimelockScript <;>
  cases h2 : d.buildUnbondingScript <;>
  cases h3 : d.buildSlashingScript <;>
  cases h4 : d.buildUnbondingTimelockScript <;>
  cases h5 : d.buildDataEmbedScript <;>
  simp_all [bind, Except.bind, pure, Except.pure]

/-- C7 (witness): atomicity applied at an instance with an empty
finality-provider list, whose data-embed sub-build fails. -/
theorem c7_witness :
    (StakingScriptDataMini.mk (List.replicate 32 1) [] [List.replicate 32 3]
        1 100 100 [1]).buildStakingTimelockScript
      = .error "TypeError: list argument must be an Array of Buffers" ∨
    (StakingScriptDataMini.mk (List.replicate 32 1) [] [List.replicate 32 3]
        1 100 100 [1]).buildUnbondingScript
      = .error "TypeError: list argument must be an Array of Buffers" ∨
    (StakingScriptDataMini.mk (List.replicate 32 1) [] [List.replicate 32 3]
        1 100 100 [1]).buildSlashingScript
      = .error "TypeError: list argument must be an Array of Buffers" ∨
    (StakingScriptDataMini.mk (List.replicate 32 1) [] [List.replicate 32 3]
        1 100 100 [1]).buildUnbondingTimelockScript
      = .error "TypeError: list argument must be an Array of Buffers" ∨
    (StakingScriptDataMini.mk (List.replicate 32 1) [] [List.replicate 32 3]
        1 100 100 [1]).buildDataEmbedScript
      = .error "TypeError: list argument must be an Array of Buffers" :=
  (c7_atomic_bundle
    (StakingScriptDataMini.mk (List.replicate 32 1) [] [List.replicate 32 3]
      1 100 100 [1])).2
    "TypeError: list argument must be an Array of Buffers" (by rfl)

/-- C8: the renderer is whitespace-insensitive in its literal fragments —
rendering with every fragment whitespace-stripped produces exactly the
same result as rendering the original fragments, because each literal
fragment is whitespace-stripped before concatenation. -/
theorem c8_whitespace_insensitive (strings : List String) (args : List Arg) :
    msString (strings.map stripWs) args = msString strings args := by
  induction strings generalizing args with
  | nil => rfl
  | cons s ss ih =>
      cases args with
      | nil => simp only [List.map_cons, msString, formatMs_stripWs, ih]
      | cons a as => simp only [List.map_cons, msString, formatMs_stripWs, ih]

/-- C9: constructing `StakingScriptDataMini` with an empty
finality-provider list and all other fields valid succeeds — validation
does not require the list to be non-empty — but `buildDataEmbedScript` on
the constructed instance fails, because it reads the first element of the
provider-key list without a non-emptiness guard. -/
theorem c9_empty_fp_accepted (sk : List Nat) (cov : List (List Nat)) (thr st ut : Nat)
    (mb : List Nat) (hsk : sk.length = 32) (hcov : ∀ k ∈ cov, k.length = 32)
    (hthr : 1 ≤ thr) (hst1 : 1 ≤ st) (hst2 : st ≤ 65535) (hut : 1 ≤ ut) :
    (StakingScriptDataMini.construct sk [] cov thr st ut mb).isOk = true ∧
    ∀ d, StakingScriptDataMini.construct sk [] cov thr st ut mb = .ok d →
      d.buildDataEmbedScript
        = .error "TypeError: list argument must be an Array of Buffers" := by
  constructor
  · exact (StakingScriptDataMini.construct_isOk_iff sk [] cov thr st ut mb).mpr
      ⟨hsk, by simp, hcov, hst1, hst2, hthr, hut⟩
  · intro d hd
    simp only [StakingScriptDataMini.construct] at hd
    rw [if_neg (by simp only [Bool.or_eq_true, decide_eq_true_eq]; omega)] at hd
    rw [if_neg (by
      simp only [Bool.not_eq_true', Bool.not_eq_false]
      exact (StakingScriptDataMini.validate_iff _).mpr ⟨hsk, by simp, hcov, hst2⟩)] at hd
    rw [Except.ok.injEq] at hd
    subst hd
    unfold StakingScriptDataMini.buildDataEmbedScript
    rw [if_neg (by dsimp only; omega)]

/-- C9 (witness): the statement applied at a concrete valid parameter set
with no finality providers. -/
theorem c9_witness :
    (StakingScriptDataMini.construct (List.replicate 32 1) [] [List.replicate 32 3]
      1 100 100 [1]).isOk = true ∧
    ∀ d, StakingScriptDataMini.construct (List.replicate 32 1) [] [List.replicate 32 3]
        1 100 100 [1] = .ok d →
      d.buildDataEmbedScript
        = .error "TypeError: list argument must be an Array of Buffers" :=
  c9_empty_fp_accepted (List.replicate 32 1) [List.replicate 32 3] 1 100 100 [1]
    (by decide) (by decide) (by decide) (by decide) (by decide) (by decide)

/-- C10: the 16-bit upper bound is enforced only on the staking timelock —
for every `unbondingTimelock ≥ 1`, including values above 65535,
construction succeeds when all other fields are valid, and
`buildUnbondingTimelockScript` embeds that value as a decimal literal in
the rendered policy text. -/
theorem c10_unbonding_timelock_unbounded (sk : List Nat) (fp cov : List (List Nat))
    (thr st ut : Nat) (mb : List Nat)
    (hsk : sk.length = 32) (hfp : ∀ k ∈ fp, k.length = 32)
    (hcov : ∀ k ∈ cov, k.length = 32) (hthr : 1 ≤ thr) (hst1 : 1 ≤ st)
    (hst2 : st ≤ 65535) (hut : 1 ≤ ut) :
    (StakingScriptDataMini.construct sk fp cov thr st ut mb).isOk = true ∧
    ∀ d, StakingScriptDataMini.construct sk fp cov thr st ut mb = .ok d →
      d.buildUnbondingTimelockScript =
        .ok ("and_v(v:pk(" ++ hexString sk ++ "),older(" ++ Nat.repr ut ++ "))") := by
  constructor
  · exact (StakingScriptDataMini.construct_isOk_iff sk fp cov thr st ut mb).mpr
      ⟨hsk, hfp, hcov, hst1, hst2, hthr, hut⟩
  · intro d hd
    simp only [StakingScriptDataMini.construct] at hd
    rw [if_neg (by simp only [Bool.or_eq_true, decide_eq_true_eq]; omega)] at hd
    rw [if_neg (by
      simp only [Bool.not_eq_true', Bool.not_eq_false]
      exact (StakingScriptDataMini.validate_iff _).mpr ⟨hsk, hfp, hcov, hst2⟩)] at hd
    rw [Except.ok.injEq] at hd
    subst hd
    exact StakingScriptDataMini.buildTimelockScript_eq _ ut

/-- C10 (witness): the statement applied with an unbonding timelock of
70000, above the 16-bit bound. -/
theorem c10_witness :
    (StakingScriptDataMini.construct (List.replicate 32 1) [List.replicate 32 2]
      [List.replicate 32 3] 1 100 70000 [1]).isOk = true ∧
    ∀ d, StakingScriptDataMini.construct (List.replicate 32 1) [List.replicate 32 2]
        [List.replicate 32 3] 1 100 70000 [1] = .ok d →
      d.buildUnbondingTimelockScript =
        .ok ("and_v(v:pk(" ++ hexString (List.replicate 32 1) ++ "),older(" ++
          Nat.repr 70000 ++ "))") :=
  c10_unbonding_timelock_unbounded (List.replicate 32 1) [List.replicate 32 2]
    [List.replicate 32 3] 1 100 70000 [1]
    (by decide) (by decide) (by decide) (by decide) (by decide) (by decide) (by decide)

end BtcStaking
